import Mathlib

/-!
Shallow embedding of `maml_zoo/policies/base.py` from the ProMP repository:
the abstract `Policy` and `MetaPolicy` classes.

Python exceptions are modelled with `Except PyErr`; a method that raises
returns `Except.error`, a method that returns normally returns `Except.ok`.
The mutable attributes of a `MetaPolicy` instance (`_pre_update_mode`,
`policies_params_vals`) form an explicit state record, and the mutating
methods are state transformers. TensorFlow variables and placeholders are
modelled by records of their observable data (name, dtype, shape); the
TensorFlow session that materialises variable values is modelled by keeping
the current value of each network variable directly in the policy state.
-/

set_option linter.unusedVariables false

namespace MamlZoo

/-- Python exceptions raised by methods of this module: the bare
`raise NotImplementedError` of the abstract stubs, and `AssertionError`
(with its message, empty for a bare `assert`) from failed assertions. -/
inductive PyErr where
  | notImplementedError
  | assertionError (msg : String)
  deriving DecidableEq, Repr

/-- Tensor dtypes that occur in the module (`tf.float32`, or anything else). -/
inductive DType where
  | float32
  | other (s : String)
  deriving DecidableEq, Repr

/-- A `tf.placeholder(dtype, shape)` as created in the module: its dtype and
static shape are its only observable data here. -/
structure Placeholder where
  dtype : DType
  shape : List Nat
  deriving DecidableEq, Repr

/-- A `tf.Variable` as seen by `_create_placeholders_for_vars`: its graph
name and static shape. -/
structure TfVar where
  name : String
  shape : List Nat
  deriving DecidableEq, Repr

/-- A `Policy` instance as relevant to `get_params` / `set_params` and
serialization: `init_args` holds the constructor arguments recorded by
`Serializable.quick_init(self, locals())`, and `policy_params` is the
ordered dict `self.policy_params` of network variables (variable name to
current session value), which concrete subclasses create in `build_graph`. -/
structure PolicyState (A V : Type) where
  init_args : A
  policy_params : List (String × V)
  deriving DecidableEq, Repr

/-- `Policy.build_graph`: `raise NotImplementedError`. -/
def Policy.build_graph {A V R : Type} (self : PolicyState A V) : Except PyErr R :=
  Except.error PyErr.notImplementedError

/-- `Policy.get_action(observation)`: `raise NotImplementedError`. -/
def Policy.get_action {A V O R : Type} (self : PolicyState A V) (observation : O) :
    Except PyErr R :=
  Except.error PyErr.notImplementedError

/-- `Policy.get_actions(observations)`: `raise NotImplementedError`. -/
def Policy.get_actions {A V O R : Type} (self : PolicyState A V) (observations : O) :
    Except PyErr R :=
  Except.error PyErr.notImplementedError

/-- `Policy.reset(dones=None)`: the body is `pass`, so the call returns
`None` normally. -/
def Policy.reset {A V D : Type} (self : PolicyState A V) (dones : Option D) :
    Except PyErr Unit :=
  Except.ok ()

/-- `Policy.log_diagnostics(paths)`: the body is `pass`, so the call returns
`None` normally. -/
def Policy.log_diagnostics {A V P : Type} (self : PolicyState A V) (paths : P) :
    Except PyErr Unit :=
  Except.ok ()

/-- The `Policy.distribution` property: `raise NotImplementedError`. -/
def Policy.distribution {A V R : Type} (self : PolicyState A V) : Except PyErr R :=
  Except.error PyErr.notImplementedError

/-- `Policy.distribution_info_sym(obs_var, params=None)`:
`raise NotImplementedError`. -/
def Policy.distribution_info_sym {A V O P R : Type} (self : PolicyState A V)
    (obs_var : O) (params : Option P) : Except PyErr R :=
  Except.error PyErr.notImplementedError

/-- `Policy.distribution_info_keys(obs, state_infos)`:
`raise NotImplementedError`. -/
def Policy.distribution_info_keys {A V O S R : Type} (self : PolicyState A V)
    (obs : O) (state_infos : S) : Except PyErr R :=
  Except.error PyErr.notImplementedError

/-- `Policy.get_params()`: returns `self.policy_params`. -/
def Policy.get_params {A V : Type} (self : PolicyState A V) : List (String × V) :=
  self.policy_params

/-- `Policy.get_param_values()`: `tf.get_default_session().run(self.policy_params)`
evaluates every variable of the dict to its current session value; in this
embedding the state already stores current values, so the result is the
ordered dict itself. -/
def Policy.get_param_values {A V : Type} (self : PolicyState A V) : List (String × V) :=
  self.policy_params

/-- The mutable state of a `MetaPolicy` instance: `__init__` sets
`self._pre_update_mode = True` and `self.policies_params_vals = None`.
`policies_params_vals` is `none` for Python `None`, `some l` for a list `l`
of per-task parameter dicts (each dict of type `P`). -/
structure MetaPolicyState (P : Type) where
  _pre_update_mode : Bool
  policies_params_vals : Option (List P)
  deriving DecidableEq, Repr

/-- `MetaPolicy.__init__`: starts in pre-update mode with no per-task
parameter values. -/
def MetaPolicy.init {P : Type} : MetaPolicyState P :=
  { _pre_update_mode := true, policies_params_vals := none }

/-- `MetaPolicy.switch_to_pre_update()`: sets `_pre_update_mode = True` and
`policies_params_vals = None`. -/
def MetaPolicy.switch_to_pre_update {P : Type} (self : MetaPolicyState P) :
    MetaPolicyState P :=
  { _pre_update_mode := true, policies_params_vals := none }

/-- `MetaPolicy.update_task_parameters(updated_policies_parameters)`: stores
the argument in `policies_params_vals` and sets `_pre_update_mode = False`.
The argument is whatever Python value the caller passes, so it is an
`Option (List P)` here (`none` models passing `None`). -/
def MetaPolicy.update_task_parameters {P : Type} (self : MetaPolicyState P)
    (updated_policies_parameters : Option (List P)) : MetaPolicyState P :=
  { _pre_update_mode := false, policies_params_vals := updated_policies_parameters }

/-- `MetaPolicy._get_pre_update_actions(observations)`:
`raise NotImplementedError`. -/
def MetaPolicy._get_pre_update_actions {P O R : Type} (self : MetaPolicyState P)
    (observations : O) : Except PyErr R :=
  Except.error PyErr.notImplementedError

/-- `MetaPolicy._get_post_update_actions(observations)`:
`raise NotImplementedError`. -/
def MetaPolicy._get_post_update_actions {P O R : Type} (self : MetaPolicyState P)
    (observations : O) : Except PyErr R :=
  Except.error PyErr.notImplementedError

/-- `MetaPolicy.get_actions(observations)`: dispatches on `_pre_update_mode`
to `_get_pre_update_actions` or `_get_post_update_actions`; the instance
state is not modified, so the unchanged state is returned alongside the
result. -/
def MetaPolicy.get_actions {P O R : Type} (self : MetaPolicyState P)
    (observations : O) : Except PyErr R × MetaPolicyState P :=
  if self._pre_update_mode then
    (MetaPolicy._get_pre_update_actions self observations, self)
  else
    (MetaPolicy._get_post_update_actions self observations, self)

/-- `MetaPolicy.build_graph`: `raise NotImplementedError` (overrides the
`Policy` stub with another stub). -/
def MetaPolicy.build_graph {P R : Type} (self : MetaPolicyState P) : Except PyErr R :=
  Except.error PyErr.notImplementedError

/-- The Python value passed as `scopes` to `_create_placeholders_for_vars`:
a `list` of scope names, a `tuple` of scope names, or any value that is
neither (for which `isinstance(scopes, list) or isinstance(scopes, tuple)`
is false). -/
inductive Scopes where
  | pyList (xs : List String)
  | pyTuple (xs : List String)
  | notAListOrTuple
  deriving DecidableEq, Repr

/-- `isinstance(scopes, list) or isinstance(scopes, tuple)`. -/
def Scopes.isListOrTuple : Scopes → Bool
  | .pyList _ => true
  | .pyTuple _ => true
  | .notAListOrTuple => false

/-- The scope names held by a `list` or `tuple` value (irrelevant for other
values, which fail the assertion before being iterated). -/
def Scopes.elems : Scopes → List String
  | .pyList xs => xs
  | .pyTuple xs => xs
  | .notAListOrTuple => []

/-- `MetaPolicy._create_placeholders_for_vars(scopes, meta_batch_size=1, graph_keys=...)`.
`remove_scope_from_name` (imported from `maml_zoo.utils.utils`) and
`tf.get_collection(graph_keys, scope=scope)` are external to this file's
source and are abstracted as the function arguments `rm` (variable name and
scope to stripped name) and `coll` (scope to collected variable list).
After the `assert isinstance(scopes, list) or isinstance(scopes, tuple)`,
the method appends, per scope, a list of `meta_batch_size` OrderedDicts,
each mapping `remove_scope_from_name(var.name, scope)` to
`tf.placeholder(tf.float32, shape=var.shape)` for every collected `var`. -/
def MetaPolicy._create_placeholders_for_vars (rm : String → String → String)
    (coll : String → List TfVar) (scopes : Scopes) (meta_batch_size : Nat) :
    Except PyErr (List (List (List (String × Placeholder)))) :=
  if scopes.isListOrTuple then
    Except.ok (scopes.elems.map fun scope =>
      (List.range meta_batch_size).map fun _ =>
        (coll scope).map fun var =>
          (rm var.name scope, Placeholder.mk DType.float32 var.shape))
  else
    Except.error (PyErr.assertionError "")

/-- The `zip`-bounded key check of `Policy.set_params`:
`all([k1 == k2 for k1, k2 in zip(self.get_params().keys(), policy_params.keys())])`. -/
def Policy.paramKeysMatch {A V : Type} (self : PolicyState A V)
    (policy_params : List (String × V)) : Bool :=
  (((Policy.get_params self).map Prod.fst).zip (policy_params.map Prod.fst)).all
    fun p => p.1 == p.2

/-- Effect on the session of running the assign ops built by `set_params`:
`zip(self.get_params().values(), policy_params.items())` pairs each variable
with an incoming value up to the shorter of the two dicts, and each paired
variable is assigned its incoming value; unpaired variables keep their
current value. -/
def runAssignOps {V : Type} : List (String × V) → List (String × V) → List (String × V)
  | ps, [] => ps
  | [], _ => []
  | (k, _) :: ps, (_, w) :: ws => (k, w) :: runAssignOps ps ws

/-- `Policy.set_params(policy_params)`: asserts the zipped key sequences
match (message `"parameter keys must match with vrariable"`, as in the
source), then builds one `tf.assign` per zipped pair and runs them in the
session; the resulting policy state has the paired variables overwritten
with the incoming values. -/
def Policy.set_params {A V : Type} (self : PolicyState A V)
    (policy_params : List (String × V)) : Except PyErr (PolicyState A V) :=
  if Policy.paramKeysMatch self policy_params then
    Except.ok { self with
      policy_params := runAssignOps self.policy_params policy_params }
  else
    Except.error (PyErr.assertionError "parameter keys must match with vrariable")

/-- What `Policy.__getstate__` returns: a dict with the serialized
constructor arguments under `init_args` (from `Serializable.__getstate__`)
and the current network parameter values under `network_params`
(from `self.get_param_values()`). -/
structure PolicyPickle (A V : Type) where
  init_args : A
  network_params : List (String × V)
  deriving DecidableEq, Repr

/-- `Policy.__getstate__`. `Serializable.__getstate__` (outside this file's
source) returns the constructor arguments recorded by `quick_init`, i.e.
`self.init_args` in this embedding. -/
def Policy.getstate {A V : Type} (self : PolicyState A V) : PolicyPickle A V :=
  { init_args := self.init_args,
    network_params := Policy.get_param_values self }

/-- `Policy.__setstate__(state)`. `Serializable.__setstate__` restores the
constructor arguments, and `tf.global_variables_initializer()` re-creates
the network variables with fresh initial values; both steps are external to
this file's source and are abstracted by `build`, which maps constructor
arguments to the freshly initialized `policy_params` dict. The method then
calls `self.set_params(state['network_params'])`. -/
def Policy.setstate {A V : Type} (build : A → List (String × V))
    (state : PolicyPickle A V) : Except PyErr (PolicyState A V) :=
  Policy.set_params
    { init_args := state.init_args, policy_params := build state.init_args }
    state.network_params

/-- One call in a sequence of `MetaPolicy` mode-switching calls:
`switch_to_pre_update()` or `update_task_parameters(ps)` with the non-`None`
list argument `ps`. -/
inductive MetaOp (P : Type) where
  | switchToPre
  | updateTaskParams (ps : List P)
  deriving DecidableEq, Repr

/-- Execute one mode-switching call on a `MetaPolicy` state. -/
def MetaOp.apply {P : Type} (s : MetaPolicyState P) : MetaOp P → MetaPolicyState P
  | .switchToPre => MetaPolicy.switch_to_pre_update s
  | .updateTaskParams ps => MetaPolicy.update_task_parameters s (some ps)

/-- Execute a sequence of mode-switching calls from a given state. -/
def MetaOp.run {P : Type} (s : MetaPolicyState P) (ops : List (MetaOp P)) :
    MetaPolicyState P :=
  ops.foldl MetaOp.apply s

/-- The mode/parameters invariant of `MetaPolicy`: the policy is in
pre-update mode exactly when it holds no per-task parameter values. -/
def MetaPolicyState.modeInv {P : Type} (s : MetaPolicyState P) : Prop :=
  s._pre_update_mode = true ↔ s.policies_params_vals = none

instance {P : Type} [DecidableEq P] (s : MetaPolicyState P) :
    Decidable s.modeInv := by
  unfold MetaPolicyState.modeInv
  infer_instance

/-- A concrete example `Policy` instance for witnesses: trivial constructor
arguments and a two-variable network. -/
def pEx : PolicyState Unit Nat :=
  { init_args := (), policy_params := [("w0", 3), ("b0", 4)] }

/-- A concrete scope-stripping function for witnesses. -/
def rmEx : String → String → String := fun n scope => n.drop (scope.length + 1)

/-- A concrete variable collection for witnesses: one variable per scope. -/
def collEx : String → List TfVar := fun scope => [TfVar.mk (scope ++ "/w") [2, 3]]

/-- Preservation of the mode/parameters invariant: both
`switch_to_pre_update` and `update_task_parameters` with a non-`None`
argument (re)establish it from any state. -/
theorem MetaOp.apply_modeInv {P : Type} (s : MetaPolicyState P) (op : MetaOp P) :
    (MetaOp.apply s op).modeInv := by
  cases op <;>
    simp [MetaOp.apply, MetaPolicy.switch_to_pre_update,
      MetaPolicy.update_task_parameters, MetaPolicyState.modeInv]

/-- Any sequence of mode-switching calls from a state satisfying the
invariant ends in a state satisfying it. -/
theorem MetaOp.run_modeInv {P : Type} (ops : List (MetaOp P))
    (s : MetaPolicyState P) (h : s.modeInv) : (MetaOp.run s ops).modeInv := by
  induction ops generalizing s with
  | nil => exact h
  | cons op ops ih =>
    simpa [MetaOp.run, List.foldl] using ih (MetaOp.apply s op) (MetaOp.apply_modeInv s op)

/-- C1: Calling `build_graph`, `get_action`, or `distribution_info_sym` on a
`Policy` instance, or `_get_post_update_actions` on a `MetaPolicy` instance,
raises `NotImplementedError`, for every instance and every argument
(`build_graph` is also a stub on `MetaPolicy` itself). -/
theorem c1_abstract_methods_raise {A V O O2 P2 P Ob R : Type}
    (self : PolicyState A V) (observation : O) (obs_var : O2) (params : Option P2)
    (ms : MetaPolicyState P) (observations : Ob) :
    (Policy.build_graph self : Except PyErr R) = Except.error PyErr.notImplementedError ∧
    (Policy.get_action self observation : Except PyErr R) =
      Except.error PyErr.notImplementedError ∧
    (Policy.distribution_info_sym self obs_var params : Except PyErr R) =
      Except.error PyErr.notImplementedError ∧
    (MetaPolicy._get_post_update_actions ms observations : Except PyErr R) =
      Except.error PyErr.notImplementedError ∧
    (MetaPolicy.build_graph ms : Except PyErr R) = Except.error PyErr.notImplementedError :=
  ⟨rfl, rfl, rfl, rfl, rfl⟩

/-- C2 counterexample: `Policy.reset` is an operational method whose body is
`pass`; called on a concrete instance with `dones=None` it runs to
completion and returns `None` instead of raising `NotImplementedError`. -/
theorem c2_counterexample :
    Policy.reset pEx (none : Option Unit) = Except.ok () ∧
    Policy.reset pEx (none : Option Unit) ≠ Except.error PyErr.notImplementedError :=
  ⟨rfl, by simp [Policy.reset]⟩

/-- C2 amended: the abstract methods (`build_graph`, `get_action`,
`get_actions` on `Policy`, `distribution`, `distribution_info_sym`,
`distribution_info_keys`, `_get_pre_update_actions`,
`_get_post_update_actions`) raise `NotImplementedError` for every instance
and argument, but not every operational method is such a stub: `reset` and
`log_diagnostics` are no-ops that run to completion, and
`switch_to_pre_update` and `update_task_parameters` run to completion while
updating the instance state. -/
theorem c2_amended_stubs_and_concrete_methods {A V O O2 P2 S Pa D P Ob R : Type}
    (self : PolicyState A V) (observation : O) (obs_var : O2) (params : Option P2)
    (obs : O) (state_infos : S) (paths : Pa) (dones : Option D)
    (ms : MetaPolicyState P) (observations : Ob) (upd : Option (List P)) :
    (Policy.build_graph self : Except PyErr R) = Except.error PyErr.notImplementedError ∧
    (Policy.get_action self observation : Except PyErr R) =
      Except.error PyErr.notImplementedError ∧
    (Policy.get_actions self observations : Except PyErr R) =
      Except.error PyErr.notImplementedError ∧
    (Policy.distribution self : Except PyErr R) = Except.error PyErr.notImplementedError ∧
    (Policy.distribution_info_sym self obs_var params : Except PyErr R) =
      Except.error PyErr.notImplementedError ∧
    (Policy.distribution_info_keys self obs state_infos : Except PyErr R) =
      Except.error PyErr.notImplementedError ∧
    (MetaPolicy._get_pre_update_actions ms observations : Except PyErr R) =
      Except.error PyErr.notImplementedError ∧
    (MetaPolicy._get_post_update_actions ms observations : Except PyErr R) =
      Except.error PyErr.notImplementedError ∧
    Policy.reset self dones = Except.ok () ∧
    Policy.log_diagnostics self paths = Except.ok () ∧
    (MetaPolicy.switch_to_pre_update ms)._pre_update_mode = true ∧
    (MetaPolicy.update_task_parameters ms upd).policies_params_vals = upd :=
  ⟨rfl, rfl, rfl, rfl, rfl, rfl, rfl, rfl, rfl, rfl, rfl, rfl⟩

/-- C3: `update_task_parameters(p)` with a list `p` stores `p` in
`policies_params_vals` and leaves pre-update mode; `switch_to_pre_update()`
re-enters pre-update mode and clears `policies_params_vals`. -/
theorem c3_update_and_switch_effects {P : Type} (s : MetaPolicyState P) (p : List P) :
    (MetaPolicy.update_task_parameters s (some p)).policies_params_vals = some p ∧
    (MetaPolicy.update_task_parameters s (some p))._pre_update_mode = false ∧
    (MetaPolicy.switch_to_pre_update s)._pre_update_mode = true ∧
    (MetaPolicy.switch_to_pre_update s).policies_params_vals = none :=
  ⟨rfl, rfl, rfl, rfl⟩

/-- C4: in every `MetaPolicy` state reachable from `__init__` by any
sequence of `switch_to_pre_update` and `update_task_parameters` calls with
non-`None` arguments, `_pre_update_mode` is `True` iff
`policies_params_vals` is `None`; `__init__` itself starts in pre-update
mode with `policies_params_vals = None`. -/
theorem c4_mode_invariant {P : Type} (ops : List (MetaOp P)) :
    ((MetaOp.run (MetaPolicy.init : MetaPolicyState P) ops)._pre_update_mode = true ↔
      (MetaOp.run (MetaPolicy.init : MetaPolicyState P) ops).policies_params_vals = none) ∧
    (MetaPolicy.init : MetaPolicyState P)._pre_update_mode = true ∧
    (MetaPolicy.init : MetaPolicyState P).policies_params_vals = none :=
  ⟨MetaOp.run_modeInv ops MetaPolicy.init (by simp [MetaPolicy.init, MetaPolicyState.modeInv]),
   rfl, rfl⟩

/-- C5: `get_actions(observations)` returns `_get_pre_update_actions` in
pre-update mode and `_get_post_update_actions` otherwise, leaves the state
unchanged, and on the base `MetaPolicy` raises `NotImplementedError` in
either mode. -/
theorem c5_get_actions_dispatch {P O R : Type} (s : MetaPolicyState P) (obs : O) :
    (s._pre_update_mode = true →
      (MetaPolicy.get_actions s obs : Except PyErr R × MetaPolicyState P).1 =
        MetaPolicy._get_pre_update_actions s obs) ∧
    (s._pre_update_mode = false →
      (MetaPolicy.get_actions s obs : Except PyErr R × MetaPolicyState P).1 =
        MetaPolicy._get_post_update_actions s obs) ∧
    (MetaPolicy.get_actions s obs : Except PyErr R × MetaPolicyState P).2 = s ∧
    (MetaPolicy.get_actions s obs : Except PyErr R × MetaPolicyState P).1 =
      Except.error PyErr.notImplementedError := by
  by_cases h : s._pre_update_mode <;>
    simp [MetaPolicy.get_actions, h, MetaPolicy._get_pre_update_actions,
      MetaPolicy._get_post_update_actions]

/-- C5 witness: on a freshly initialized `MetaPolicy` (pre-update mode) the
dispatch goes to `_get_pre_update_actions` and the state is unchanged. -/
theorem c5_witness :
    ((MetaPolicy.get_actions (MetaPolicy.init : MetaPolicyState Nat) (0 : Nat) :
        Except PyErr Nat × MetaPolicyState Nat).1 =
      MetaPolicy._get_pre_update_actions (MetaPolicy.init : MetaPolicyState Nat) (0 : Nat)) ∧
    ((MetaPolicy.get_actions (MetaPolicy.init : MetaPolicyState Nat) (0 : Nat) :
        Except PyErr Nat × MetaPolicyState Nat).2 = MetaPolicy.init) :=
  ⟨(c5_get_actions_dispatch (MetaPolicy.init : MetaPolicyState Nat) (0 : Nat)).1 rfl,
   (c5_get_actions_dispatch (MetaPolicy.init : MetaPolicyState Nat) (0 : Nat)).2.2.1⟩

/-- Mapping a constant function over a list yields a replicated list. -/
theorem map_anon_const {α β : Type} (l : List α) (b : β) :
    (l.map fun _ => b) = List.replicate l.length b := by
  induction l with
  | nil => rfl
  | cons x xs ih => simp [List.replicate_succ, ih]

/-- C6: for a `list` or `tuple` of scopes and any `meta_batch_size` `m`,
`_create_placeholders_for_vars` returns one entry per scope, each entry a
list of `m` identical OrderedDicts mapping the scope-stripped name of every
collected variable in that scope to a `float32` placeholder of that
variable's shape; a `scopes` value that is neither a list nor a tuple fails
the `assert`. -/
theorem c6_create_placeholders (rm : String → String → String)
    (coll : String → List TfVar) (m : Nat) (xs : List String)
    (scopes bad : Scopes)
    (hxs : scopes = Scopes.pyList xs ∨ scopes = Scopes.pyTuple xs)
    (hbad : bad.isListOrTuple = false) :
    (∃ r, MetaPolicy._create_placeholders_for_vars rm coll scopes m = Except.ok r ∧
      r.length = xs.length ∧
      (∀ entry ∈ r, entry.length = m) ∧
      r = xs.map fun scope =>
        List.replicate m ((coll scope).map fun var =>
          (rm var.name scope, Placeholder.mk DType.float32 var.shape))) ∧
    MetaPolicy._create_placeholders_for_vars rm coll bad m =
      Except.error (PyErr.assertionError "") := by
  have helems : scopes.elems = xs ∧ scopes.isListOrTuple = true := by
    rcases hxs with h | h <;> subst h <;> exact ⟨rfl, rfl⟩
  constructor
  · refine ⟨xs.map fun scope =>
      List.replicate m ((coll scope).map fun var =>
        (rm var.name scope, Placeholder.mk DType.float32 var.shape)), ?_, ?_, ?_, rfl⟩
    · simp only [MetaPolicy._create_placeholders_for_vars, helems.2, if_true, helems.1]
      refine congrArg Except.ok (List.map_congr_left fun scope _ => ?_)
      rw [map_anon_const, List.length_range]
    · simp
    · intro entry hentry
      simp only [List.mem_map] at hentry
      obtain ⟨scope, _, rfl⟩ := hentry
      simp
  · simp [MetaPolicy._create_placeholders_for_vars, hbad]

/-- C6 witness: two scopes, `meta_batch_size = 2`, one collected variable
per scope; and the assertion failure on a non-list, non-tuple value. -/
theorem c6_witness :
    (∃ r, MetaPolicy._create_placeholders_for_vars rmEx collEx
        (Scopes.pyList ["a", "b"]) 2 = Except.ok r ∧
      r.length = (["a", "b"] : List String).length ∧
      (∀ entry ∈ r, entry.length = 2) ∧
      r = (["a", "b"] : List String).map fun scope =>
        List.replicate 2 ((collEx scope).map fun var =>
          (rmEx var.name scope, Placeholder.mk DType.float32 var.shape))) ∧
    MetaPolicy._create_placeholders_for_vars rmEx collEx
      Scopes.notAListOrTuple 2 = Except.error (PyErr.assertionError "") :=
  c6_create_placeholders rmEx collEx 2 ["a", "b"]
    (Scopes.pyList ["a", "b"]) Scopes.notAListOrTuple (Or.inl rfl) rfl

/-- The `zip`-bounded conjunction of key comparisons of `set_params` holds
exactly when the two key sequences agree at every position below the length
of the shorter one. -/
theorem all_zip_beq_iff (xs ys : List String) :
    (((xs.zip ys).all fun p => p.1 == p.2) = true) ↔
      ∀ i < min xs.length ys.length, xs[i]? = ys[i]? := by
  induction xs generalizing ys with
  | nil => simp
  | cons x xs ih =>
    cases ys with
    | nil => simp
    | cons y ys =>
      simp only [List.zip_cons_cons, List.all_cons, Bool.and_eq_true, beq_iff_eq, ih]
      constructor
      · rintro ⟨hxy, h⟩ i hi
        cases i with
        | zero => simp [hxy]
        | succ n =>
          have hn : n < min xs.length ys.length := by
            simp only [List.length_cons] at hi; omega
          simpa using h n hn
      · intro h
        refine ⟨?_, fun i hi => ?_⟩
        · have h0 := h 0 (by simp only [List.length_cons]; omega)
          simpa using h0
        · have hs := h (i + 1) (by simp only [List.length_cons]; omega)
          simpa using hs

/-- Running the assign ops never changes which variables the policy has:
the name sequence of `policy_params` is preserved. -/
theorem runAssignOps_map_fst {V : Type} (ps ws : List (String × V)) :
    (runAssignOps ps ws).map Prod.fst = ps.map Prod.fst := by
  induction ps generalizing ws with
  | nil => cases ws <;> simp [runAssignOps]
  | cons p ps ih =>
    cases ws with
    | nil => simp [runAssignOps]
    | cons w ws =>
      obtain ⟨k, v⟩ := p
      obtain ⟨k2, w2⟩ := w
      simp [runAssignOps, ih]

/-- When the incoming dict is no longer than the variable dict, running the
assign ops overwrites exactly the zipped prefix of variable values with the
incoming values and keeps the remaining values. -/
theorem runAssignOps_map_snd {V : Type} (ps ws : List (String × V))
    (h : ws.length ≤ ps.length) :
    (runAssignOps ps ws).map Prod.snd =
      ws.map Prod.snd ++ (ps.map Prod.snd).drop ws.length := by
  induction ps generalizing ws with
  | nil =>
    cases ws with
    | nil => simp [runAssignOps]
    | cons w ws => simp at h
  | cons p ps ih =>
    cases ws with
    | nil => simp [runAssignOps]
    | cons w ws =>
      obtain ⟨k, v⟩ := p
      obtain ⟨k2, w2⟩ := w
      simp only [List.length_cons, Nat.add_le_add_iff_right] at h
      simp [runAssignOps, ih ws h]

/-- Running the assign ops with a dict that has exactly the same key
sequence replaces the variable dict entirely by the incoming dict. -/
theorem runAssignOps_same_keys {V : Type} (ps ws : List (String × V))
    (h : ps.map Prod.fst = ws.map Prod.fst) : runAssignOps ps ws = ws := by
  induction ps generalizing ws with
  | nil =>
    cases ws with
    | nil => rfl
    | cons w ws => simp at h
  | cons p ps ih =>
    cases ws with
    | nil => simp at h
    | cons w ws =>
      obtain ⟨k, v⟩ := p
      obtain ⟨k2, w2⟩ := w
      simp only [List.map_cons, List.cons.injEq] at h
      simp [runAssignOps, h.1, ih ws h.2]

/-- C7: `set_params` raises its `AssertionError` exactly when the key
sequences of `get_params()` and `policy_params` disagree at some position
below the length of the shorter sequence; when they agree there and
`policy_params` is no longer than `get_params()` (including the empty
dict), the assertion passes and only the zipped prefix of variables is
assigned the incoming values, the rest keeping their current values. -/
theorem c7_set_params_zip_check {A V : Type} (self : PolicyState A V)
    (pp : List (String × V)) :
    (Policy.set_params self pp =
        Except.error (PyErr.assertionError "parameter keys must match with vrariable") ↔
      ∃ i < min ((Policy.get_params self).map Prod.fst).length
          ((pp.map Prod.fst).length),
        ((Policy.get_params self).map Prod.fst)[i]? ≠ (pp.map Prod.fst)[i]?) ∧
    (pp.length ≤ self.policy_params.length →
      (∀ i < min ((Policy.get_params self).map Prod.fst).length
          ((pp.map Prod.fst).length),
        ((Policy.get_params self).map Prod.fst)[i]? = (pp.map Prod.fst)[i]?) →
      ∃ r, Policy.set_params self pp = Except.ok r ∧
        r.policy_params.map Prod.fst = self.policy_params.map Prod.fst ∧
        r.policy_params.map Prod.snd =
          pp.map Prod.snd ++ (self.policy_params.map Prod.snd).drop pp.length) := by
  have hmatch : Policy.paramKeysMatch self pp = true ↔
      ∀ i < min ((Policy.get_params self).map Prod.fst).length
        ((pp.map Prod.fst).length),
        ((Policy.get_params self).map Prod.fst)[i]? = (pp.map Prod.fst)[i]? :=
    all_zip_beq_iff ((Policy.get_params self).map Prod.fst) (pp.map Prod.fst)
  have herr : Policy.set_params self pp =
      Except.error (PyErr.assertionError "parameter keys must match with vrariable") ↔
      Policy.paramKeysMatch self pp = false := by
    unfold Policy.set_params
    by_cases hk : Policy.paramKeysMatch self pp <;> simp [hk]
  constructor
  · rw [herr]
    constructor
    · intro hf
      by_contra hne
      push_neg at hne
      rw [hmatch.mpr hne] at hf
      exact Bool.noConfusion hf
    · rintro ⟨i, hi, hne⟩
      cases hk : Policy.paramKeysMatch self pp with
      | false => rfl
      | true => exact absurd (hmatch.mp hk i hi) hne
  · intro hlen hagree
    have hk : Policy.paramKeysMatch self pp = true := hmatch.mpr hagree
    refine ⟨{ self with policy_params := runAssignOps self.policy_params pp },
      ?_, ?_, ?_⟩
    · simp only [Policy.set_params, hk, if_true]
    · exact runAssignOps_map_fst self.policy_params pp
    · exact runAssignOps_map_snd self.policy_params pp hlen

/-- C7 witness: on a concrete two-variable policy, a one-entry
`policy_params` dict with the matching first key passes the assertion, only
the first variable is assigned, and the second keeps its value. -/
theorem c7_witness :
    ∃ r, Policy.set_params pEx [("w0", 9)] = Except.ok r ∧
      r.policy_params.map Prod.fst = pEx.policy_params.map Prod.fst ∧
      r.policy_params.map Prod.snd =
        ([("w0", 9)] : List (String × Nat)).map Prod.snd ++
          (pEx.policy_params.map Prod.snd).drop
            ([("w0", 9)] : List (String × Nat)).length :=
  (c7_set_params_zip_check pEx [("w0", 9)]).2 (by decide) (by decide)

/-- A concrete freshly-initialized network for the C8 witness: the same
variable names as `pEx` with zeroed initial values. -/
def buildEx : Unit → List (String × Nat) := fun _ => [("w0", 0), ("b0", 0)]

/-- C8: `__getstate__` packs the serialized constructor arguments and
`get_param_values()`; `__setstate__` restores the constructor arguments,
reinitializes the variables, and replays the saved values through
`set_params`. Provided the reinitialized network built from the same
constructor arguments has the same variable name sequence (which is what
rebuilding from identical arguments yields), unpickling reproduces the
policy's parameter values exactly. -/
theorem c8_pickle_roundtrip {A V : Type} (build : A → List (String × V))
    (p : PolicyState A V)
    (hkeys : (build p.init_args).map Prod.fst = p.policy_params.map Prod.fst) :
    ∃ q, Policy.setstate build (Policy.getstate p) = Except.ok q ∧
      q.init_args = p.init_args ∧
      Policy.get_param_values q = Policy.get_param_values p := by
  have hk : Policy.paramKeysMatch
      { init_args := p.init_args, policy_params := build p.init_args }
      p.policy_params = true := by
    apply (all_zip_beq_iff _ _).mpr
    intro i hi
    simp only [Policy.get_params] at hi ⊢
    rw [hkeys]
  refine ⟨{ init_args := p.init_args,
            policy_params := runAssignOps (build p.init_args) p.policy_params },
    ?_, rfl, ?_⟩
  · simp only [Policy.setstate, Policy.getstate, Policy.get_param_values,
      Policy.set_params, hk, if_true]
  · simp only [Policy.get_param_values]
    exact runAssignOps_same_keys (build p.init_args) p.policy_params hkeys

/-- C8 witness: pickling and unpickling the concrete two-variable policy
`pEx` (rebuilt by `buildEx`, which reproduces the variable names with
zeroed initial values) restores its parameter values. -/
theorem c8_witness :
    ∃ q, Policy.setstate buildEx (Policy.getstate pEx) = Except.ok q ∧
      q.init_args = pEx.init_args ∧
      Policy.get_param_values q = Policy.get_param_values pEx :=
  c8_pickle_roundtrip buildEx pEx (by decide)

/-- C9 counterexample: the module does contain deliberate input validation:
on a concrete instance, `set_params` with a wrongly-named key raises
`AssertionError("parameter keys must match with vrariable")`, and
`_create_placeholders_for_vars` with a `scopes` value that is neither a
list nor a tuple raises a bare `AssertionError`. -/
theorem c9_counterexample :
    Policy.set_params pEx [("nope", 0)] =
      Except.error (PyErr.assertionError "parameter keys must match with vrariable") ∧
    MetaPolicy._create_placeholders_for_vars rmEx collEx Scopes.notAListOrTuple 1 =
      Except.error (PyErr.assertionError "") :=
  ⟨rfl, rfl⟩

/-- C9 amended: exactly two methods validate their input with assertions:
`set_params` raises `AssertionError("parameter keys must match with
vrariable")` whenever the zipped key comparison fails, and
`_create_placeholders_for_vars` raises a bare `AssertionError` whenever
`scopes` is neither a list nor a tuple; the other raises in the module are
the `NotImplementedError` abstract stubs, not input validation. -/
theorem c9_assertion_validation {A V : Type} (self : PolicyState A V)
    (pp : List (String × V)) (hk : Policy.paramKeysMatch self pp = false)
    (rm : String → String → String) (coll : String → List TfVar)
    (bad : Scopes) (hbad : bad.isListOrTuple = false) (m : Nat) :
    Policy.set_params self pp =
      Except.error (PyErr.assertionError "parameter keys must match with vrariable") ∧
    MetaPolicy._create_placeholders_for_vars rm coll bad m =
      Except.error (PyErr.assertionError "") := by
  constructor
  · simp [Policy.set_params, hk]
  · simp [MetaPolicy._create_placeholders_for_vars, hbad]

/-- C9 amended witness: the two assertion failures at concrete inputs. -/
theorem c9_witness :
    Policy.set_params pEx [("b0", 7)] =
      Except.error (PyErr.assertionError "parameter keys must match with vrariable") ∧
    MetaPolicy._create_placeholders_for_vars rmEx collEx Scopes.notAListOrTuple 3 =
      Except.error (PyErr.assertionError "") :=
  c9_assertion_validation pEx [("b0", 7)] (by decide) rmEx collEx
    Scopes.notAListOrTuple rfl 3

end MamlZoo
